import Mathlib

/-!
Verification of the Q-Gen agent core (`gemini_utils.py`, `qubic_integration.py`,
the commit slice of `main.py`) against its natural-language specification.

The Python source is shallowly embedded: Python dicts/lists/JSON values become
the inductive `JValue` (an ordered association list models a dict, matching
CPython's insertion-order semantics where assigning to an existing key keeps
its position and replaces its value); functions that can raise are
`Option`-valued with `none` modelling a caught exception; the module-global
credential cursor and cached model client become an explicit `GState` threaded
through the retry loops, together with a `Trace` recording attempts, remote
calls (tagged by the credential the used client was built from), rotations and
sleep durations.  The remote model and SHA-256 are opaque effects and are
passed in as parameters (`env : Nat → CallOutcome`, `h : String → String`);
no claim under verification depends on their internals.  JSON numerals are
modelled as integers: every numeral exercised by the claims is an integer.
-/

set_option autoImplicit false

namespace QGen

/-- Python whitespace as used by `str.strip()` (space, tab, LF, CR, VT, FF). -/
def isPyWs (c : Char) : Bool :=
  c = ' ' || c = '\t' || c = '\n' || c = '\r' || c = '\x0b' || c = '\x0c'

/-- Does `pat` occur as a prefix of `cs`? -/
def startsWithList : List Char → List Char → Bool
  | [], _ => true
  | _ :: _, [] => false
  | p :: ps, c :: cs => p = c && startsWithList ps cs

/-- Index (counting from `i`) of the first occurrence of `pat` in `cs`; models
Python `str.find(pat)` restricted to the tail starting at `i`. -/
def firstIdxAux (pat : List Char) : List Char → Nat → Option Nat
  | [], i => if pat.isEmpty then some i else none
  | c :: cs, i =>
    if startsWithList pat (c :: cs) then some i else firstIdxAux pat cs (i + 1)

/-- Python `t.find(pat, start)`: first index `≥ start` where `pat` occurs. -/
def idxOfFrom (t pat : String) (start : Nat) : Option Nat :=
  (firstIdxAux pat.data (t.data.drop start) 0).map (· + start)

/-- Python `t.find(c, start)` for a single character. -/
def charIdxFrom (t : String) (c : Char) (start : Nat) : Option Nat :=
  idxOfFrom t (String.mk [c]) start

/-- Index of the last occurrence of `c` in `cs` (offset by `i`); helper for
Python `str.rfind`. -/
def lastIdxAux (c : Char) : List Char → Nat → Option Nat → Option Nat
  | [], _, acc => acc
  | x :: xs, i, acc => lastIdxAux c xs (i + 1) (if x = c then some i else acc)

/-- Python `t.rfind(c)`: index of the last occurrence of `c`, if any. -/
def lastCharIdx (t : String) (c : Char) : Option Nat :=
  lastIdxAux c t.data 0 none

/-- Python slice `t[a:b]` (clamping, character-indexed). -/
def substr (t : String) (a b : Nat) : String :=
  String.mk ((t.data.drop a).take (b - a))

/-- Python `s.strip()`. -/
def pyStrip (s : String) : String :=
  String.mk (((s.data.dropWhile isPyWs).reverse.dropWhile isPyWs).reverse)

/-- Fuel-driven core of Python `s.replace(pat, rep)`: replaces every
non-overlapping occurrence left to right.  Fuel is the length of the list, so
it never runs out for the non-empty patterns used here. -/
def replaceAllAux (pat rep : List Char) : Nat → List Char → List Char
  | 0, cs => cs
  | _ + 1, [] => []
  | f + 1, c :: cs =>
    if startsWithList pat (c :: cs) then
      rep ++ replaceAllAux pat rep f (List.drop pat.length (c :: cs))
    else
      c :: replaceAllAux pat rep f cs

/-- Python `s.replace(pat, rep)`. -/
def pyReplace (s pat rep : String) : String :=
  String.mk (replaceAllAux pat.data rep.data s.data.length s.data)

/-- Substring containment, modelling Python `pat in s`. -/
def containsSub (s pat : String) : Bool :=
  (firstIdxAux pat.data s.data 0).isSome

/-- Python `s.upper()` restricted to ASCII, as applied to hex digests. -/
def pyUpper (s : String) : String :=
  String.mk (s.data.map Char.toUpper)

/-- JSON values as produced by `json.loads`, with Python dicts modelled as
ordered association lists.  Numerals are modelled as integers (see module
comment). -/
inductive JValue where
  | null
  | bool (b : Bool)
  | num (n : Int)
  | str (s : String)
  | arr (xs : List JValue)
  | obj (kvs : List (String × JValue))

/-- Dict lookup: value stored at key `k`, if present. -/
def jLookup (kvs : List (String × JValue)) (k : String) : Option JValue :=
  match kvs with
  | [] => none
  | (k', v) :: rest => if k' = k then some v else jLookup rest k

/-- Python dict assignment `d[k] = v`: replaces the value in place if the key
is present (keeping its position, as CPython does), else appends. -/
def setKey (kvs : List (String × JValue)) (k : String) (v : JValue) :
    List (String × JValue) :=
  match kvs with
  | [] => [(k, v)]
  | (k', v') :: rest =>
    if k' = k then (k', v) :: rest else (k', v') :: setKey rest k v

/-- Fields of the dict at key `k`, defaulting to the empty dict. -/
def getObjAt (kvs : List (String × JValue)) (k : String) :
    List (String × JValue) :=
  match jLookup kvs k with
  | some (.obj inner) => inner
  | _ => []

/-- Skip JSON whitespace. -/
def skipWs (cs : List Char) : List Char :=
  cs.dropWhile (fun c => c = ' ' || c = '\t' || c = '\n' || c = '\r')

/-- Decode the body of a JSON string literal (after the opening quote),
returning the decoded characters and the remainder after the closing quote. -/
def parseStrLit : List Char → Option (List Char × List Char)
  | [] => none
  | '"' :: rest => some ([], rest)
  | '\\' :: esc =>
    match esc with
    | [] => none
    | e :: rest =>
      let dec : Option Char :=
        if e = '"' then some '"'
        else if e = '\\' then some '\\'
        else if e = '/' then some '/'
        else if e = 'n' then some '\n'
        else if e = 't' then some '\t'
        else if e = 'r' then some '\r'
        else if e = 'b' then some '\x08'
        else if e = 'f' then some '\x0c'
        else none
      match dec with
      | some c => (parseStrLit rest).map (fun p => (c :: p.1, p.2))
      | none => none
  | c :: rest => (parseStrLit rest).map (fun p => (c :: p.1, p.2))

/-- Read a run of decimal digits as a natural number. -/
def parseDigits : List Char → Option Nat → (Option Nat × List Char)
  | [], acc => (acc, [])
  | c :: cs, acc =>
    if c.isDigit then
      parseDigits cs (some ((acc.getD 0) * 10 + (c.toNat - '0'.toNat)))
    else
      (acc, c :: cs)

/-- Task of one step of the fuel-driven JSON parser: parse a value, or the
members of an object / items of an array already opened. -/
inductive PTask where
  | val
  | objMembers (acc : List (String × JValue))
  | arrItems (acc : List JValue)

/-- Fuel-driven JSON parser; returns the parsed value and the unconsumed
remainder.  Every recursive call consumes at least one character, so fuel
equal to the input length plus a constant suffices. -/
def pv : Nat → PTask → List Char → Option (JValue × List Char)
  | 0, _, _ => none
  | f + 1, .val, cs =>
    match skipWs cs with
    | '{' :: rest => pv f (.objMembers []) rest
    | '[' :: rest => pv f (.arrItems []) rest
    | '"' :: rest =>
      (parseStrLit rest).map (fun p => (.str (String.mk p.1), p.2))
    | 't' :: 'r' :: 'u' :: 'e' :: rest => some (.bool true, rest)
    | 'f' :: 'a' :: 'l' :: 's' :: 'e' :: rest => some (.bool false, rest)
    | 'n' :: 'u' :: 'l' :: 'l' :: rest => some (.null, rest)
    | '-' :: rest =>
      match parseDigits rest none with
      | (some n, rest') => some (.num (-(n : Int)), rest')
      | (none, _) => none
    | c :: rest =>
      if c.isDigit then
        match parseDigits (c :: rest) none with
        | (some n, rest') => some (.num (n : Int), rest')
        | (none, _) => none
      else none
    | [] => none
  | f + 1, .objMembers acc, cs =>
    match skipWs cs with
    | '}' :: rest => if acc.isEmpty then some (.obj acc, rest) else none
    | '"' :: rest =>
      match parseStrLit rest with
      | none => none
      | some (key, rest1) =>
        match skipWs rest1 with
        | ':' :: rest2 =>
          match pv f .val rest2 with
          | none => none
          | some (v, rest3) =>
            match skipWs rest3 with
            | '}' :: rest4 =>
              some (.obj (setKey acc (String.mk key) v), rest4)
            | ',' :: rest4 =>
              pv f (.objMembers (setKey acc (String.mk key) v)) rest4
            | _ => none
        | _ => none
    | _ => none
  | f + 1, .arrItems acc, cs =>
    match skipWs cs with
    | ']' :: rest => if acc.isEmpty then some (.arr acc.reverse, rest) else none
    | _ =>
      match pv f .val cs with
      | none => none
      | some (v, rest) =>
        match skipWs rest with
        | ']' :: rest' => some (.arr (v :: acc).reverse, rest')
        | ',' :: rest' => pv f (.arrItems (v :: acc)) rest'
        | _ => none

/-- Model of Python `json.loads`: parses a complete JSON document, rejecting
trailing garbage; `none` models a raised `JSONDecodeError`. -/
def jsonLoads (s : String) : Option JValue :=
  match pv (s.length + 8) .val s.data with
  | some (v, rest) => if (skipWs rest).isEmpty then some v else none
  | none => none

/-- Model name from `config.py` (`GEMINI_MODEL_NAME`). -/
def GEMINI_MODEL_NAME : String := "gemini-2.5-flash-lite"

/-- First two guarded assignments of `gemini_utils.ensure_json_structure`:
if `"compliance"` is missing or not a dict it is reset to `{}` (and the empty
dict then certainly lacks `"ai_governance"`, so that key is filled next);
if `"compliance"` is a dict already containing `"ai_governance"`, nothing
changes; otherwise `"ai_governance"` is written into the existing dict
(in-place mutation in Python, value update here, key positions kept). -/
def healCompliance (audit : List (String × JValue)) :
    List (String × JValue) :=
  match jLookup audit "compliance" with
  | some (.obj comp) =>
    if (jLookup comp "ai_governance").isSome then audit
    else
      setKey audit "compliance"
        (.obj (setKey comp "ai_governance"
          (.obj [("model_name", .str GEMINI_MODEL_NAME)])))
  | _ =>
    setKey (setKey audit "compliance" (.obj [])) "compliance"
      (.obj (setKey [] "ai_governance"
        (.obj [("model_name", .str GEMINI_MODEL_NAME)])))

/-- Third guarded assignment of `ensure_json_structure`: a default
`security_audit` object is written only when the key is absent (presence is
the only check; the existing value is kept whatever its shape). -/
def healSecurity (audit : List (String × JValue)) :
    List (String × JValue) :=
  if (jLookup audit "security_audit").isSome then audit
  else
    setKey audit "security_audit"
      (.obj [("vulnerabilities_detected", .arr []),
             ("gas_cost_estimate", .str "UNKNOWN"),
             ("is_qbc_compliant", .bool false)])

/-- Embedding of `gemini_utils.ensure_json_structure`: heals missing keys.
Python mutates the dict in place; here the updated dict is returned.  Calling
it on a non-dict raises in Python; callers that can pass a non-dict go through
`ensureJV` below, whose `none` models that raise. -/
def ensure_json_structure (audit : List (String × JValue)) :
    List (String × JValue) :=
  healSecurity (healCompliance audit)

/-- `ensure_json_structure` on an arbitrary JSON value: applying it to a
non-dict raises a `TypeError` in Python (modelled by `none`). -/
def ensureJV : JValue → Option (List (String × JValue))
  | .obj kvs => some (ensure_json_structure kvs)
  | _ => none

/-- The non-greedy search `re.search(r'\[TAG1\](.*?)\[TAG2\]', t, re.DOTALL)`:
the match starts at the first occurrence of `pat1` and the group ends at the
first occurrence of `pat2` after it. -/
def strictSpan (t pat1 pat2 : String) : Option String :=
  match idxOfFrom t pat1 0 with
  | none => none
  | some i =>
    match idxOfFrom t pat2 (i + pat1.length) with
    | none => none
    | some j => some (substr t (i + pat1.length) j)

/-- The cleanup applied to the JSON span before `json.loads`:
`.replace('```json','').replace('```','')`. -/
def stripFences (j : String) : String :=
  pyReplace (pyReplace j "```json" "") "```" ""

/-- Strategy 1 of `parse_qubic_dual_output` ("Strict Tags"): both tag pairs
must match and the cleaned JSON span must parse as a dict; any failure inside
the `try` (including `ensure_json_structure` on a non-dict) is caught and
yields `none`. -/
def strategy1 (t : String) : Option (String × List (String × JValue)) :=
  match strictSpan t "[C++ START]" "[C++ END]",
        strictSpan t "[JSON START]" "[JSON END]" with
  | some c, some j =>
    match jsonLoads (stripFences j) with
    | some (.obj kvs) => some (pyStrip c, ensure_json_structure kvs)
    | _ => none
  | _, _ => none

/-- The alternatives of `re.sub(r'```cpp|```c\+\+|```|\[C\+\+ START\]|\[C\+\+ END\]', '', _)`,
in the order the regex engine tries them at each position. -/
def fenceMarkers : List (List Char) :=
  ["```cpp".data, "```c++".data, "```".data,
   "[C++ START]".data, "[C++ END]".data]

/-- Length of the first alternative matching at the head of `cs`, if any. -/
def firstPatLen (cs : List Char) : Option Nat :=
  (fenceMarkers.find? (fun p => startsWithList p cs)).map List.length

/-- Fuel-driven scan deleting every leftmost-first marker occurrence. -/
def reSubMarkersAux : Nat → List Char → List Char
  | 0, cs => cs
  | _ + 1, [] => []
  | f + 1, c :: cs =>
    match firstPatLen (c :: cs) with
    | some n => reSubMarkersAux f (List.drop n (c :: cs))
    | none => c :: reSubMarkersAux f cs

/-- The marker-deleting `re.sub` applied to the recovered code text. -/
def reSubMarkers (s : String) : String :=
  String.mk (reSubMarkersAux s.data.length s.data)

/-- The `json_start` computed by strategy 2 of `parse_qubic_dual_output`:
`t.find('{', len(t)//3)`, falling back to `t.find('{')`. -/
def heuristicJsonStart (t : String) : Option Nat :=
  match charIdxFrom t '\x7b' (t.length / 3) with
  | some i => some i
  | none => charIdxFrom t '\x7b' 0

/-- Index of the last occurrence of `c` at position `≤ bound` (offset `i`,
accumulator `acc`); helper for the claimed backward search. -/
def lastIdxUpTo (c : Char) (bound : Nat) :
    List Char → Nat → Option Nat → Option Nat
  | [], _, acc => acc
  | x :: xs, i, acc =>
    lastIdxUpTo c bound xs (i + 1)
      (if x = c ∧ i ≤ bound then some i else acc)

/-- Modelled from the claim's words, for comparison with the code's
`heuristicJsonStart`: "searches backward from roughly the two-thirds point of
the text (falling back to the first `{` if none found past that point) for
the matching `{`" — i.e. the last `{` at or before index `2*len/3`, falling
back to the first `{` anywhere.  (At the counterexample input this also
coincides with the brace that matches the final `}`, so the refutation does
not hinge on how "matching" is read.) -/
def claimedHeuristicJsonStart (t : String) : Option Nat :=
  match lastIdxUpTo '\x7b' (2 * t.length / 3) t.data 0 none with
  | some i => some i
  | none => charIdxFrom t '\x7b' 0

/-- Strategy 2 of `parse_qubic_dual_output` ("Markdown Heuristic"):
`json_end = t.rfind('}')`; `json_start` as in `heuristicJsonStart`; the span
between must parse as a dict; everything before it is the code, stripped and
cleaned of markers. -/
def strategy2 (t : String) : Option (String × List (String × JValue)) :=
  match lastCharIdx t '\x7d' with
  | none => none
  | some e =>
    match heuristicJsonStart t with
    | none => none
    | some i =>
      match jsonLoads (substr t i (e + 1)) with
      | some (.obj kvs) =>
        some (pyStrip (reSubMarkers (pyStrip (substr t 0 i))),
              ensure_json_structure kvs)
      | _ => none

/-- The comment banner prepended to the raw text in the debug passthrough. -/
def rawBanner : String :=
  "// --- RAW UNPARSED OUTPUT ---\n// The parser failed, but here is what the AI said:\n\n"

/-- The placeholder audit of the debug passthrough branch. -/
def debugDict : List (String × JValue) :=
  [("contract_id", .str "DEBUG-RAW"),
   ("contract_type", .str "Debug"),
   ("input_prompt_summary", .str "Raw Output Display"),
   ("agent_note", .str "Displayed raw output for debugging.")]

/-- The dict `{"code": ..., "json": ...}` returned by every branch of
`parse_qubic_dual_output`. -/
def mkDualResult (code : String) (j : List (String × JValue)) : JValue :=
  .obj [("code", .str code), ("json", .obj j)]

/-- Embedding of `gemini_utils.parse_qubic_dual_output`: strict tags, then the
markdown heuristic, then the debug passthrough. -/
def parse_qubic_dual_output (t : String) : JValue :=
  match strategy1 t with
  | some (c, j) => mkDualResult c j
  | none =>
    match strategy2 t with
    | some (c, j) => mkDualResult c j
    | none => mkDualResult (rawBanner ++ t) (ensure_json_structure debugDict)

/-- The raw-scan fallback dict returned when the scan response cannot be
parsed (truncated excerpt of the raw text in a note field). -/
def scanRawFallback (t : String) : List (String × JValue) :=
  ensure_json_structure
    [("contract_id", .str "RAW-SCAN-OUTPUT"),
     ("agent_note", .str ("Raw output: " ++ substr t 0 200 ++ "..."))]

/-- The response handling of `perform_code_scan` on non-blocked text: parse
the first-`{`-to-last-`}` span; any failure inside the inner `try` —
`json.loads` raising, or `ensure_json_structure` raising on a non-dict — and
the either-index-missing case all fall to the raw-scan fallback dict. -/
def scanParse (t : String) : List (String × JValue) :=
  match charIdxFrom t '\x7b' 0, lastCharIdx t '\x7d' with
  | some i, some j =>
    match jsonLoads (substr t i (j + 1)) with
    | some (.obj kvs) => ensure_json_structure kvs
    | _ => scanRawFallback t
  | _, _ => scanRawFallback t

/-- Outcome of one `client.generate_content` call: a response (text, whether
`response.candidates` is non-empty, and the composed block message used when
the blocked branch fires), or a raised exception with its message. -/
inductive CallOutcome where
  | resp (text : String) (hasCandidates : Bool) (blockMsg : String)
  | exn (msg : String)

/-- The module-global state of `gemini_utils`: the credential cursor (number
of `next(KEY_ITERATOR)` steps taken; the active credential is
`API_KEY_POOL[keyIdx % len(pool)]`) and the cached `model_client`, tagged with
the cursor value it was built from. -/
structure GState where
  keyIdx : Nat
  client : Option Nat

/-- Observable trace of one orchestrator call: loop iterations entered, the
client binding used by each remote call, rotations performed, and the
durations passed to `time.sleep`. -/
structure Trace where
  attempts : Nat
  calls : List Nat
  rotations : Nat
  sleeps : List Nat

/-- The empty trace. -/
def Trace.init : Trace := ⟨0, [], 0, []⟩

/-- Embedding of `gemini_utils.get_gemini_client`: returns the cached client,
else builds one bound to the current credential; `ok` tells whether
construction at a given cursor value succeeds (a failure is caught and leaves
`model_client = None`). -/
def get_gemini_client (ok : Nat → Bool) (s : GState) : Option Nat × GState :=
  match s.client with
  | some c => (some c, s)
  | none =>
    if ok s.keyIdx then (some s.keyIdx, ⟨s.keyIdx, some s.keyIdx⟩)
    else (none, s)

/-- Embedding of `gemini_utils.rotate_client_and_key`: advance the cursor
(`next` on a `cycle` never fails), drop the cached client, rebuild. -/
def rotate_client_and_key (ok : Nat → Bool) (s : GState) :
    Option Nat × GState :=
  get_gemini_client ok ⟨s.keyIdx + 1, none⟩

/-- The rate-limit test `"429" in msg or "exhausted" in msg`. -/
def is429 (m : String) : Bool :=
  containsSub m "429" || containsSub m "exhausted"

/-- Initial `last_error_log` of both orchestrators. -/
def UNKNOWN_ERR : String := "// Unknown error occurred across all retries."

/-- The degraded result `generate_code_and_audit` returns after all retries
fail. -/
def degradedGen (lastErr : String) : JValue :=
  .obj [("code", .str ("// Error: AI failed to respond or was blocked.\n" ++ lastErr)),
        ("json", .obj (ensure_json_structure [("contract_id", .str "ERR-NO-RESPONSE")]))]

/-- The retry loop of `generate_code_and_audit`.  `client` is the local
variable bound before the loop; note the source never reassigns it (the value
returned by `rotate_client_and_key` is used only as a truthiness test), so
every iteration calls the remote model through the same binding.  `callNo`
indexes `env`, the outcome of each successive remote call. -/
def genLoop (ok : Nat → Bool) (env : Nat → CallOutcome) (client : Nat) :
    Nat → Nat → GState → Trace → String → JValue × GState × Trace
  | 0, _, s, tr, lastErr => (degradedGen lastErr, s, tr)
  | n + 1, callNo, s, tr, lastErr =>
    let tr1 : Trace :=
      { tr with attempts := tr.attempts + 1, calls := tr.calls ++ [client] }
    match env callNo with
    | .resp text hasCand blockMsg =>
      if text = "" && hasCand then
        let lastErr1 := "// Blocked: " ++ blockMsg
        if is429 blockMsg then
          match rotate_client_and_key ok s with
          | (some _, s1) =>
            genLoop ok env client n (callNo + 1) s1
              { tr1 with rotations := tr1.rotations + 1 } lastErr1
          | (none, s1) =>
            genLoop ok env client n (callNo + 1) s1
              { tr1 with rotations := tr1.rotations + 1,
                         sleeps := tr1.sleeps ++ [1] } lastErr1
        else
          genLoop ok env client n (callNo + 1) s
            { tr1 with sleeps := tr1.sleeps ++ [1] } lastErr1
      else
        (parse_qubic_dual_output text, s, tr1)
    | .exn msg =>
      let lastErr1 := "// API Error: " ++ msg
      if is429 msg then
        match rotate_client_and_key ok s with
        | (some _, s1) =>
          genLoop ok env client n (callNo + 1) s1
            { tr1 with rotations := tr1.rotations + 1 } lastErr1
        | (none, s1) =>
          genLoop ok env client n (callNo + 1) s1
            { tr1 with rotations := tr1.rotations + 1,
                       sleeps := tr1.sleeps ++ [1] } lastErr1
      else
        genLoop ok env client n (callNo + 1) s
          { tr1 with sleeps := tr1.sleeps ++ [1] } lastErr1

/-- Embedding of `gemini_utils.generate_code_and_audit`: obtain a client (a
`None` client returns Python `None` immediately), then run the retry loop;
the default retry budget in the source is 3. -/
def generate_code_and_audit (ok : Nat → Bool) (env : Nat → CallOutcome)
    (retries : Nat) (s : GState) : Option JValue × GState × Trace :=
  match get_gemini_client ok s with
  | (none, s1) => (none, s1, Trace.init)
  | (some c, s1) =>
    let (r, s2, tr) := genLoop ok env c retries 0 s1 Trace.init UNKNOWN_ERR
    (some r, s2, tr)

/-- Message of the `AttributeError` raised by `client.generate_content` when
`client` is `None`. -/
def NONE_TYPE_MSG : String :=
  "\x27NoneType\x27 object has no attribute \x27generate_content\x27"

/-- The degraded audit `perform_code_scan` returns after all retries fail. -/
def degradedScan (lastErr : String) : List (String × JValue) :=
  ensure_json_structure
    [("contract_id", .str "ERR-SCAN-FAILED"),
     ("agent_note", .str ("AI failed to respond or was blocked after retries. Last known error: " ++ lastErr))]

/-- The retry loop of `perform_code_scan`.  Unlike the generation path the
source never checks the client for `None`: a `None` client makes
`client.generate_content` raise an `AttributeError` that the generic `except`
branch catches (no remote call is made), so the loop still consumes its
attempts. -/
def scanLoop (ok : Nat → Bool) (env : Nat → CallOutcome)
    (client : Option Nat) :
    Nat → Nat → GState → Trace → String →
      List (String × JValue) × GState × Trace
  | 0, _, s, tr, lastErr => (degradedScan lastErr, s, tr)
  | n + 1, callNo, s, tr, lastErr =>
    let trA : Trace := { tr with attempts := tr.attempts + 1 }
    match client with
    | none =>
      scanLoop ok env client n callNo s
        { trA with sleeps := trA.sleeps ++ [1] }
        ("// API Error: " ++ NONE_TYPE_MSG)
    | some c =>
      let tr1 : Trace := { trA with calls := trA.calls ++ [c] }
      match env callNo with
      | .resp text hasCand blockMsg =>
        if text = "" && hasCand then
          let lastErr1 := "// Blocked: " ++ blockMsg
          if is429 blockMsg then
            match rotate_client_and_key ok s with
            | (some _, s1) =>
              scanLoop ok env client n (callNo + 1) s1
                { tr1 with rotations := tr1.rotations + 1 } lastErr1
            | (none, s1) =>
              scanLoop ok env client n (callNo + 1) s1
                { tr1 with rotations := tr1.rotations + 1,
                           sleeps := tr1.sleeps ++ [1] } lastErr1
          else
            scanLoop ok env client n (callNo + 1) s
              { tr1 with sleeps := tr1.sleeps ++ [1] } lastErr1
        else
          (scanParse text, s, tr1)
      | .exn msg =>
        let lastErr1 := "// API Error: " ++ msg
        if is429 msg then
          match rotate_client_and_key ok s with
          | (some _, s1) =>
            scanLoop ok env client n (callNo + 1) s1
              { tr1 with rotations := tr1.rotations + 1 } lastErr1
          | (none, s1) =>
            scanLoop ok env client n (callNo + 1) s1
              { tr1 with rotations := tr1.rotations + 1,
                         sleeps := tr1.sleeps ++ [1] } lastErr1
        else
          scanLoop ok env client n (callNo + 1) s
            { tr1 with sleeps := tr1.sleeps ++ [1] } lastErr1

/-- Embedding of `gemini_utils.perform_code_scan`: note there is no
early-return on a `None` client; the loop always runs. -/
def perform_code_scan (ok : Nat → Bool) (env : Nat → CallOutcome)
    (retries : Nat) (s : GState) :
    List (String × JValue) × GState × Trace :=
  let (c, s1) := get_gemini_client ok s
  scanLoop ok env c retries 0 s1 Trace.init UNKNOWN_ERR

/-- Rendering of `f"{x}"` for the value produced by `dict.get`: Python
`None` renders as `"None"`, a string as itself.  The container cases are
abbreviated rendering; no verified path reaches them. -/
def pyFmtOpt : Option JValue → String
  | none => "None"
  | some .null => "None"
  | some (.str s) => s
  | some (.bool b) => if b then "True" else "False"
  | some (.num n) => toString n
  | some (.arr _) => "[...]"
  | some (.obj _) => "\x7b...\x7d"

/-- Embedding of `qubic_integration.commit_audit_log`, with the SHA-256
function passed in as `h` (an opaque deterministic digest).  The seed is
`f"{code_hash}-{audit_data.get('meta', {}).get('submission_timestamp')}"`;
`none` models the `AttributeError` raised when `meta` is present but not a
dict. -/
def commit_audit_log (h : String → String) (code_hash : String)
    (audit : List (String × JValue)) : Option String :=
  let meta : Option (List (String × JValue)) :=
    match jLookup audit "meta" with
    | some (.obj m) => some m
    | none => some []
    | some _ => none
  meta.map (fun m =>
    let seed := code_hash ++ "-" ++ pyFmtOpt (jLookup m "submission_timestamp")
    "QUBIC-TX-" ++ pyUpper ((h seed).take 16))

/-- Embedding of `qubic_integration.log_scan_transaction`: same shape with a
`SCAN-` seed prefix and a `QUBIC-SCAN-TX-` identifier prefix. -/
def log_scan_transaction (h : String → String) (code_hash : String)
    (audit : List (String × JValue)) : Option String :=
  let meta : Option (List (String × JValue)) :=
    match jLookup audit "meta" with
    | some (.obj m) => some m
    | none => some []
    | some _ => none
  meta.map (fun m =>
    let seed := "SCAN-" ++ code_hash ++ "-" ++
      pyFmtOpt (jLookup m "submission_timestamp")
    "QUBIC-SCAN-TX-" ++ pyUpper ((h seed).take 16))

/-- The `meta` object `main.process_qubic_request` writes before a generation
commit (`main.py` lines 150-154). -/
def genMeta (ref code_hash : String) : List (String × JValue) :=
  [("client_ref_id", .str ref),
   ("generated_code_hash", .str code_hash),
   ("mode", .str "GENERATION")]

/-- The `meta` object written before a scan commit (`main.py` lines 190-194). -/
def scanMeta (ref code_hash : String) : List (String × JValue) :=
  [("client_ref_id", .str ref),
   ("scanned_code_hash", .str code_hash),
   ("mode", .str "SCANNING")]

/-- The endpoint's assignment
`audit['compliance']['ai_governance']['audit_timestamp'] = now_iso()`;
`none` models the raise when the nested dicts are missing. -/
def setAuditTimestamp (audit : List (String × JValue)) (ts : String) :
    Option (List (String × JValue)) :=
  match jLookup audit "compliance" with
  | some (.obj comp) =>
    match jLookup comp "ai_governance" with
    | some (.obj gov) =>
      some (setKey audit "compliance"
        (.obj (setKey comp "ai_governance"
          (.obj (setKey gov "audit_timestamp" (.str ts))))))
    | _ => none
  | _ => none

/-- The generation-mode commit slice of `main.process_qubic_request`: stamp
the audit with the current time `ts`, attach the `meta` object, commit. -/
def genCommitTxId (h : String → String) (ref : String)
    (audit : List (String × JValue)) (code_hash ts : String) :
    Option String :=
  (setAuditTimestamp audit ts).bind (fun a1 =>
    commit_audit_log h code_hash (setKey a1 "meta" (.obj (genMeta ref code_hash))))

/-- The scan-mode commit slice of `main.process_qubic_request`. -/
def scanCommitTxId (h : String → String) (ref : String)
    (audit : List (String × JValue)) (code_hash ts : String) :
    Option String :=
  (setAuditTimestamp audit ts).bind (fun a1 =>
    log_scan_transaction h code_hash (setKey a1 "meta" (.obj (scanMeta ref code_hash))))

/-!  Association-list lemmas about the dict model. -/

theorem jLookup_setKey_self (kvs : List (String × JValue)) (k : String)
    (v : JValue) : jLookup (setKey kvs k v) k = some v := by
  induction kvs with
  | nil => simp [setKey, jLookup]
  | cons hd tl ih =>
    obtain ⟨k', v'⟩ := hd
    by_cases h : k' = k
    · simp [setKey, jLookup, h]
    · simp [setKey, jLookup, h, ih]

theorem jLookup_setKey_ne (kvs : List (String × JValue)) (k k' : String)
    (v : JValue) (h : k' ≠ k) :
    jLookup (setKey kvs k v) k' = jLookup kvs k' := by
  induction kvs with
  | nil =>
    simp only [setKey, jLookup]
    rw [if_neg (fun hh => h hh.symm)]
  | cons hd tl ih =>
    obtain ⟨a, b⟩ := hd
    by_cases ha : a = k
    · subst ha
      simp only [setKey, if_pos rfl, jLookup]
      rw [if_neg (fun hh : a = k' => h hh.symm),
          if_neg (fun hh : a = k' => h hh.symm)]
    · simp only [setKey, if_neg ha, jLookup]
      by_cases hak : a = k'
      · rw [if_pos hak, if_pos hak]
      · rw [if_neg hak, if_neg hak]
        exact ih

theorem jLookup_setKey_isSome (kvs : List (String × JValue)) (k k' : String)
    (v : JValue) (h : (jLookup kvs k').isSome) :
    (jLookup (setKey kvs k v) k').isSome := by
  by_cases hk : k' = k
  · subst hk; simp [jLookup_setKey_self]
  · rwa [jLookup_setKey_ne _ _ _ _ hk]

/-!  Structural lemmas about the audit normalizer. -/

theorem healCompliance_lookup_ne (x : List (String × JValue)) (k : String)
    (h : k ≠ "compliance") :
    jLookup (healCompliance x) k = jLookup x k := by
  unfold healCompliance
  split
  · split
    · rfl
    · exact jLookup_setKey_ne _ _ _ _ h
  · rw [jLookup_setKey_ne _ _ _ _ h, jLookup_setKey_ne _ _ _ _ h]

theorem healSecurity_lookup_ne (x : List (String × JValue)) (k : String)
    (h : k ≠ "security_audit") :
    jLookup (healSecurity x) k = jLookup x k := by
  unfold healSecurity
  split
  · rfl
  · exact jLookup_setKey_ne _ _ _ _ h

theorem healCompliance_good (x : List (String × JValue)) :
    ∃ comp, jLookup (healCompliance x) "compliance" = some (.obj comp) ∧
      (jLookup comp "ai_governance").isSome := by
  unfold healCompliance
  split
  case h_1 comp heq =>
    by_cases hg : (jLookup comp "ai_governance").isSome
    · exact ⟨comp, by simp [hg, heq], hg⟩
    · refine ⟨setKey comp "ai_governance"
        (.obj [("model_name", .str GEMINI_MODEL_NAME)]), ?_, ?_⟩
      · simp [hg, jLookup_setKey_self]
      · simp [jLookup_setKey_self]
  case h_2 =>
    refine ⟨setKey [] "ai_governance"
      (.obj [("model_name", .str GEMINI_MODEL_NAME)]), ?_, ?_⟩
    · simp [jLookup_setKey_self]
    · simp [jLookup_setKey_self]

theorem healCompliance_of_good (x : List (String × JValue))
    (comp : List (String × JValue))
    (h1 : jLookup x "compliance" = some (.obj comp))
    (h2 : (jLookup comp "ai_governance").isSome) :
    healCompliance x = x := by
  unfold healCompliance
  rw [h1]
  simp [h2]

theorem healSecurity_some (x : List (String × JValue)) :
    (jLookup (healSecurity x) "security_audit").isSome := by
  unfold healSecurity
  split
  case isTrue h => exact h
  case isFalse h => simp [jLookup_setKey_self]

theorem healSecurity_of_present (x : List (String × JValue))
    (h : (jLookup x "security_audit").isSome) : healSecurity x = x := by
  unfold healSecurity
  simp [h]

theorem healCompliance_reset (x : List (String × JValue))
    (hnd : ∀ comp, jLookup x "compliance" ≠ some (JValue.obj comp)) :
    healCompliance x = setKey (setKey x "compliance" (JValue.obj []))
      "compliance" (JValue.obj (setKey [] "ai_governance"
        (JValue.obj [("model_name", JValue.str GEMINI_MODEL_NAME)]))) := by
  unfold healCompliance
  split
  next comp heq => exact absurd heq (hnd comp)
  next => rfl

theorem healCompliance_creates (x comp : List (String × JValue))
    (h1 : jLookup x "compliance" = some (JValue.obj comp))
    (h2 : jLookup comp "ai_governance" = none) :
    healCompliance x = setKey x "compliance"
      (JValue.obj (setKey comp "ai_governance"
        (JValue.obj [("model_name", JValue.str GEMINI_MODEL_NAME)]))) := by
  unfold healCompliance
  simp only [h1]
  simp [h2]

theorem ensure_compliance_good (x : List (String × JValue)) :
    ∃ comp, jLookup (ensure_json_structure x) "compliance" = some (.obj comp) ∧
      (jLookup comp "ai_governance").isSome := by
  obtain ⟨comp, hc, hg⟩ := healCompliance_good x
  refine ⟨comp, ?_, hg⟩
  unfold ensure_json_structure
  rw [healSecurity_lookup_ne _ _ (by decide), hc]

theorem ensure_security_some (x : List (String × JValue)) :
    (jLookup (ensure_json_structure x) "security_audit").isSome :=
  healSecurity_some _

theorem ensure_idem (x : List (String × JValue)) :
    ensure_json_structure (ensure_json_structure x) = ensure_json_structure x := by
  obtain ⟨comp, hc, hg⟩ := ensure_compliance_good x
  have h1 : healCompliance (ensure_json_structure x) = ensure_json_structure x :=
    healCompliance_of_good _ comp hc hg
  show healSecurity (healCompliance (ensure_json_structure x)) = ensure_json_structure x
  rw [h1, healSecurity_of_present _ (ensure_security_some x)]

theorem ensure_lookup_ne (x : List (String × JValue)) (k : String)
    (h1 : k ≠ "compliance") (h2 : k ≠ "security_audit") :
    jLookup (ensure_json_structure x) k = jLookup x k := by
  unfold ensure_json_structure
  rw [healSecurity_lookup_ne _ _ h2, healCompliance_lookup_ne _ _ h1]

theorem ensure_preserves_of_ne_compliance (x : List (String × JValue))
    (k : String) (v : JValue) (h1 : k ≠ "compliance")
    (h2 : jLookup x k = some v) :
    jLookup (ensure_json_structure x) k = some v := by
  by_cases hs : k = "security_audit"
  · subst hs
    unfold ensure_json_structure
    rw [healSecurity_of_present _
      (by rw [healCompliance_lookup_ne _ _ h1, h2]; rfl)]
    rw [healCompliance_lookup_ne _ _ h1, h2]
  · rw [ensure_lookup_ne _ _ h1 hs, h2]

theorem ensure_keeps_present (x : List (String × JValue)) (k : String)
    (h : (jLookup x k).isSome) :
    (jLookup (ensure_json_structure x) k).isSome := by
  by_cases hc : k = "compliance"
  · subst hc
    obtain ⟨comp, hcc, _⟩ := ensure_compliance_good x
    simp [hcc]
  · by_cases hs : k = "security_audit"
    · subst hs; exact ensure_security_some x
    · rwa [ensure_lookup_ne _ _ hc hs]

/-!  Closed-form runs of the retry loops under uniform environments. -/

theorem genLoop_all429 (env : Nat → CallOutcome) (msg : String)
    (hm : is429 msg = true) (henv : ∀ k, env k = .exn msg) (client : Nat) :
    ∀ (n callNo : Nat) (s : GState) (tr : Trace) (lastErr : String),
    genLoop (fun _ => true) env client (n + 1) callNo s tr lastErr =
      (degradedGen ("// API Error: " ++ msg),
       ⟨s.keyIdx + (n + 1), some (s.keyIdx + (n + 1))⟩,
       ⟨tr.attempts + (n + 1), tr.calls ++ List.replicate (n + 1) client,
        tr.rotations + (n + 1), tr.sleeps⟩) := by
  intro n
  induction n with
  | zero =>
    intro callNo s tr lastErr
    rw [genLoop, henv callNo]
    simp only [hm, if_true, rotate_client_and_key, get_gemini_client]
    rw [genLoop]
    simp [List.replicate]
  | succ n ih =>
    intro callNo s tr lastErr
    rw [genLoop, henv callNo]
    simp only [hm, if_true, rotate_client_and_key, get_gemini_client]
    rw [ih]
    simp [List.replicate_succ, List.append_assoc, Nat.add_assoc,
      Nat.add_comm 1]

theorem genLoop_allNon429 (ok : Nat → Bool) (env : Nat → CallOutcome)
    (msg : String) (hm : is429 msg = false) (henv : ∀ k, env k = .exn msg)
    (client : Nat) :
    ∀ (n callNo : Nat) (s : GState) (tr : Trace) (lastErr : String),
    genLoop ok env client (n + 1) callNo s tr lastErr =
      (degradedGen ("// API Error: " ++ msg), s,
       ⟨tr.attempts + (n + 1), tr.calls ++ List.replicate (n + 1) client,
        tr.rotations, tr.sleeps ++ List.replicate (n + 1) 1⟩) := by
  intro n
  induction n with
  | zero =>
    intro callNo s tr lastErr
    rw [genLoop, henv callNo]
    simp only [hm, Bool.false_eq_true, if_false]
    rw [genLoop]
    simp [List.replicate]
  | succ n ih =>
    intro callNo s tr lastErr
    rw [genLoop, henv callNo]
    simp only [hm, Bool.false_eq_true, if_false]
    rw [ih]
    simp [List.replicate_succ, List.append_assoc, Nat.add_assoc,
      Nat.add_comm 1]

theorem scanLoop_allNon429 (ok : Nat → Bool) (env : Nat → CallOutcome)
    (msg : String) (hm : is429 msg = false) (henv : ∀ k, env k = .exn msg)
    (c : Nat) :
    ∀ (n callNo : Nat) (s : GState) (tr : Trace) (lastErr : String),
    scanLoop ok env (some c) (n + 1) callNo s tr lastErr =
      (degradedScan ("// API Error: " ++ msg), s,
       ⟨tr.attempts + (n + 1), tr.calls ++ List.replicate (n + 1) c,
        tr.rotations, tr.sleeps ++ List.replicate (n + 1) 1⟩) := by
  intro n
  induction n with
  | zero =>
    intro callNo s tr lastErr
    rw [scanLoop, henv callNo]
    simp only [hm, Bool.false_eq_true, if_false]
    rw [scanLoop]
    simp [List.replicate]
  | succ n ih =>
    intro callNo s tr lastErr
    rw [scanLoop, henv callNo]
    simp only [hm, Bool.false_eq_true, if_false]
    rw [ih]
    simp [List.replicate_succ, List.append_assoc, Nat.add_assoc,
      Nat.add_comm 1]

theorem scanLoop_noClient (ok : Nat → Bool) (env : Nat → CallOutcome) :
    ∀ (n callNo : Nat) (s : GState) (tr : Trace) (lastErr : String),
    scanLoop ok env none (n + 1) callNo s tr lastErr =
      (degradedScan ("// API Error: " ++ NONE_TYPE_MSG), s,
       ⟨tr.attempts + (n + 1), tr.calls, tr.rotations,
        tr.sleeps ++ List.replicate (n + 1) 1⟩) := by
  intro n
  induction n with
  | zero =>
    intro callNo s tr lastErr
    rw [scanLoop]
    rw [scanLoop]
    simp [List.replicate]
  | succ n ih =>
    intro callNo s tr lastErr
    rw [scanLoop]
    rw [ih]
    simp [List.replicate_succ, List.append_assoc, Nat.add_assoc,
      Nat.add_comm 1]

/-!  Claim C1. -/

/-- Environment for the C1 run: the first remote call raises a rate-limit
error, the second returns ordinary text. -/
def c1Env : Nat → CallOutcome
  | 0 => .exn "429 Resource has been exhausted"
  | _ + 1 => .resp "hello" false ""

/-- C1: the claim states that after a credential rotation inside the retry
loop, the next remote call uses a client bound to the new credential.  The
code violates this: with a first attempt failing on 429, the rotation
advances the cursor to 1 and rebuilds the cached global client, but the
second `generate_content` call still goes through the loop-local `client`
variable bound to credential 0 (`rotate_client_and_key`'s return value is
used only as a truthiness test and never reassigned to `client`).  The trace
records both calls on credential 0 while the cursor ends at 1. -/
theorem c1_rotation_leaves_loop_client_stale :
    (generate_code_and_audit (fun _ => true) c1Env 3 ⟨0, none⟩).2.2.calls =
      [0, 0] ∧
    (generate_code_and_audit (fun _ => true) c1Env 3 ⟨0, none⟩).2.2.rotations
      = 1 ∧
    (generate_code_and_audit (fun _ => true) c1Env 3 ⟨0, none⟩).2.1.keyIdx
      = 1 ∧
    (generate_code_and_audit (fun _ => true) c1Env 3 ⟨0, none⟩).2.1.client
      = some 1 :=
  ⟨rfl, rfl, rfl, rfl⟩

/-!  Claim C2. -/

/-- Environment where every remote call raises a rate-limit error. -/
def c2Env : Nat → CallOutcome := fun _ => .exn "Error 429: quota exhausted"

/-- C2 (amended): with every remote call rate-limited, the loop makes exactly
`retries` attempts and exactly `retries` rotations — the last attempt also
rotates before giving up — with no sleeps, leaves the cursor at index
`retries` (i.e. `retries mod K` within a pool of size `K`), and returns the
degraded failure payload embedding the last error. -/
theorem c2_all_rate_limited_run (retries : Nat) (hr : 0 < retries)
    (env : Nat → CallOutcome) (msg : String) (hm : is429 msg = true)
    (henv : ∀ k, env k = .exn msg) :
    (generate_code_and_audit (fun _ => true) env retries ⟨0, none⟩).1 =
      some (degradedGen ("// API Error: " ++ msg)) ∧
    (generate_code_and_audit (fun _ => true) env retries
      ⟨0, none⟩).2.2.attempts = retries ∧
    (generate_code_and_audit (fun _ => true) env retries
      ⟨0, none⟩).2.2.rotations = retries ∧
    (generate_code_and_audit (fun _ => true) env retries
      ⟨0, none⟩).2.2.sleeps = [] ∧
    (generate_code_and_audit (fun _ => true) env retries
      ⟨0, none⟩).2.1.keyIdx = retries := by
  cases retries with
  | zero => omega
  | succ n =>
    unfold generate_code_and_audit get_gemini_client
    simp only [if_true]
    rw [genLoop_all429 env msg hm henv 0 n 0 ⟨0, some 0⟩ Trace.init UNKNOWN_ERR]
    simp [Trace.init]

/-- Witness for C2 at the concrete scenario: three rate-limited calls with a
retry budget of 3 on a 2-credential pool produce 3 attempts, 3 rotations and
a cursor at 3 (index 3 mod 2 = 1). -/
theorem c2_all_rate_limited_run_witness :
    (generate_code_and_audit (fun _ => true) c2Env 3 ⟨0, none⟩).1 =
      some (degradedGen ("// API Error: " ++ "Error 429: quota exhausted")) ∧
    (generate_code_and_audit (fun _ => true) c2Env 3 ⟨0, none⟩).2.2.attempts
      = 3 ∧
    (generate_code_and_audit (fun _ => true) c2Env 3 ⟨0, none⟩).2.2.rotations
      = 3 ∧
    (generate_code_and_audit (fun _ => true) c2Env 3 ⟨0, none⟩).2.2.sleeps
      = [] ∧
    (generate_code_and_audit (fun _ => true) c2Env 3 ⟨0, none⟩).2.1.keyIdx
      = 3 :=
  c2_all_rate_limited_run 3 (by decide) c2Env "Error 429: quota exhausted"
    (by decide) (fun _ => rfl)

/-- C2 counterexample: in the claim's concrete scenario (three consecutive
429 errors, 2-credential pool, retry budget 3) the code performs 3 rotations
— not 2 — and the cursor ends at index 3 mod 2 = 1 — not 0 — before the
degraded payload is returned. -/
theorem c2_counterexample :
    (generate_code_and_audit (fun _ => true) c2Env 3 ⟨0, none⟩).2.2.rotations
      = 3 ∧
    (generate_code_and_audit (fun _ => true) c2Env 3 ⟨0, none⟩).2.1.keyIdx % 2
      = 1 ∧
    (generate_code_and_audit (fun _ => true) c2Env 3 ⟨0, none⟩).1 =
      some (degradedGen "// API Error: Error 429: quota exhausted") :=
  ⟨rfl, rfl, rfl⟩

/-!  Claim C3. -/

/-- C3: for every input text — the empty string and malformed JSON included —
`parse_qubic_dual_output` returns a (non-null) dict carrying both a `code`
and a `json` field; every fallible step is inside a caught `try`, so the
embedding is a total function and no branch can raise. -/
theorem c3_parse_always_structured (t : String) :
    ∃ c j, parse_qubic_dual_output t =
      JValue.obj [("code", JValue.str c), ("json", JValue.obj j)] := by
  unfold parse_qubic_dual_output mkDualResult
  rcases h1 : strategy1 t with _ | ⟨c, j⟩
  · rcases h2 : strategy2 t with _ | ⟨c2, j2⟩
    · exact ⟨rawBanner ++ t, ensure_json_structure debugDict, rfl⟩
    · exact ⟨c2, j2, rfl⟩
  · exact ⟨c, j, rfl⟩

/-!  Claim C4. -/

/-- What "present and well-typed" means for each key, read off the guard
conditions of `ensure_json_structure` itself: the `compliance` entry is
well-typed when it is a dict already containing `ai_governance` (the code
overwrites a non-dict `compliance` and writes into one lacking
`ai_governance`); every other key — `security_audit` included, whose guard
only checks presence — is preserved whatever its value. -/
def wellTypedKey (k : String) (v : JValue) : Prop :=
  k = "compliance" →
    ∃ kvs, v = JValue.obj kvs ∧ (jLookup kvs "ai_governance").isSome

/-- C4: the normalizer is idempotent, total over any mapping (it is a total
Lean function on the dict model), never deletes a present key, and never
changes the value of a present, well-typed key. -/
theorem c4_normalizer_idempotent_total_preserving
    (x : List (String × JValue)) :
    ensure_json_structure (ensure_json_structure x) =
      ensure_json_structure x ∧
    (∀ k, (jLookup x k).isSome →
      (jLookup (ensure_json_structure x) k).isSome) ∧
    (∀ k v, jLookup x k = some v → wellTypedKey k v →
      jLookup (ensure_json_structure x) k = some v) := by
  refine ⟨ensure_idem x, fun k => ensure_keeps_present x k, ?_⟩
  intro k v hv hwt
  by_cases hc : k = "compliance"
  · subst hc
    obtain ⟨kvs, rfl, hg⟩ := hwt rfl
    unfold ensure_json_structure
    rw [healCompliance_of_good x kvs hv hg,
        healSecurity_lookup_ne _ _ (by decide), hv]
  · exact ensure_preserves_of_ne_compliance x k v hc hv

/-- Concrete audit for the C4 witness: a string-valued `security_audit`
(present, hence untouched), a well-typed `compliance`, and an unrelated key. -/
def c4x : List (String × JValue) :=
  [("security_audit", JValue.str "keep"),
   ("compliance", JValue.obj [("ai_governance", JValue.obj []),
                              ("z", JValue.num 2)]),
   ("other", JValue.num 7)]

/-- Witness for C4 at a concrete audit. -/
theorem c4_normalizer_witness :
    ensure_json_structure (ensure_json_structure c4x) =
      ensure_json_structure c4x ∧
    jLookup (ensure_json_structure c4x) "compliance" =
      some (JValue.obj [("ai_governance", JValue.obj []),
                        ("z", JValue.num 2)]) ∧
    jLookup (ensure_json_structure c4x) "security_audit" =
      some (JValue.str "keep") := by
  have h := c4_normalizer_idempotent_total_preserving c4x
  refine ⟨h.1, h.2.2 "compliance" _ rfl ?_, h.2.2 "security_audit" _ rfl ?_⟩
  · intro _
    exact ⟨_, rfl, rfl⟩
  · intro hk
    exact absurd hk (by decide)

/-!  Claim C5. -/

/-- The C5 counterexample input: two `{` characters, at indices 5 and 8, with
the two-thirds point at index 10 and the one-third point at index 5. -/
def c5t : String := "xxxxx\x7bx \x7b\"a\":1\x7d"

/-- C5 counterexample: the code's heuristic picks the FIRST `{` at or after
the ONE-third point (index 5), not the last `{` at or before the two-thirds
point (index 8) that the claim's backward search describes.  The span from
index 8 parses as `{"a": 1}` — so the claimed algorithm would succeed — while
the code's span from index 5 fails to parse and the whole input falls through
to the debug passthrough. -/
theorem c5_counterexample :
    heuristicJsonStart c5t = some 5 ∧
    claimedHeuristicJsonStart c5t = some 8 ∧
    jsonLoads (substr c5t 8 15) = some (JValue.obj [("a", JValue.num 1)]) ∧
    jsonLoads (substr c5t 5 15) = none ∧
    parse_qubic_dual_output c5t =
      mkDualResult (rawBanner ++ c5t) (ensure_json_structure debugDict) :=
  ⟨rfl, rfl, rfl, rfl, rfl⟩

/-- C5 (amended): when strict dual-tag extraction fails, the heuristic split
takes the last `}` as the end of a JSON object, searches FORWARD from the
ONE-third point of the text for the FIRST `{` (falling back to the first `{`
anywhere if none occurs at or after that point — the second conjunct records
this fallback structure), parses that span as structured data, and returns
all prior text as the code artifact stripped of markdown fences and literal
tags. -/
theorem c5_forward_heuristic_split (t : String) (i e : Nat)
    (kvs : List (String × JValue))
    (h0 : strategy1 t = none)
    (h1 : heuristicJsonStart t = some i)
    (h2 : lastCharIdx t '\x7d' = some e)
    (h3 : jsonLoads (substr t i (e + 1)) = some (JValue.obj kvs)) :
    parse_qubic_dual_output t =
      mkDualResult (pyStrip (reSubMarkers (pyStrip (substr t 0 i))))
        (ensure_json_structure kvs) ∧
    heuristicJsonStart t =
      (match charIdxFrom t '\x7b' (t.length / 3) with
       | some k => some k
       | none => charIdxFrom t '\x7b' 0) := by
  constructor
  · unfold parse_qubic_dual_output strategy2
    simp only [h0, h2, h1, h3]
  · rfl

/-- Witness for C5 at a concrete heuristic-path input. -/
theorem c5_forward_heuristic_split_witness :
    parse_qubic_dual_output "// code here\n\x7b\"a\":1\x7d" =
      mkDualResult "// code here"
        (ensure_json_structure [("a", JValue.num 1)]) :=
  (c5_forward_heuristic_split "// code here\n\x7b\"a\":1\x7d" 13 19
    [("a", JValue.num 1)] rfl rfl rfl rfl).1

/-!  Claim C6. -/

/-- Environment for the C6 runs (never reached when no client exists). -/
def c6Env : Nat → CallOutcome := fun _ => .resp "unused" false ""

/-- C6 counterexample: with a failed client construction, `perform_code_scan`
does NOT terminate immediately — it consumes all 3 retry attempts (sleeping
1s each) and returns the degraded `ERR-SCAN-FAILED` audit, not a no-client
failure. -/
theorem c6_counterexample :
    (perform_code_scan (fun _ => false) c6Env 3 ⟨0, none⟩).2.2.attempts
      = 3 ∧
    (perform_code_scan (fun _ => false) c6Env 3 ⟨0, none⟩).2.2.sleeps
      = [1, 1, 1] ∧
    jLookup (perform_code_scan (fun _ => false) c6Env 3 ⟨0, none⟩).1
      "contract_id" = some (JValue.str "ERR-SCAN-FAILED") :=
  ⟨rfl, rfl, rfl⟩

/-- C6 (amended): when the client factory yields no client, generation mode
terminates immediately with the Python-`None` failure and zero attempts, but
scan mode — which never checks the client — runs all `retries` attempts (each
catching the `AttributeError` of calling into `None` and sleeping 1s), makes
no remote call, and returns the degraded `ERR-SCAN-FAILED` audit embedding
that error. -/
theorem c6_no_client_behavior (ok : Nat → Bool) (env : Nat → CallOutcome)
    (retries : Nat) (s : GState) (h1 : s.client = none)
    (h2 : ok s.keyIdx = false) (hr : 0 < retries) :
    (generate_code_and_audit ok env retries s).1 = none ∧
    (generate_code_and_audit ok env retries s).2.2.attempts = 0 ∧
    (generate_code_and_audit ok env retries s).2.2.calls = [] ∧
    (perform_code_scan ok env retries s).2.2.attempts = retries ∧
    (perform_code_scan ok env retries s).2.2.calls = [] ∧
    (perform_code_scan ok env retries s).2.2.sleeps =
      List.replicate retries 1 ∧
    (perform_code_scan ok env retries s).1 =
      degradedScan ("// API Error: " ++ NONE_TYPE_MSG) := by
  obtain ⟨ki, kc⟩ := s
  simp only at h1 h2
  subst h1
  cases retries with
  | zero => omega
  | succ n =>
    unfold generate_code_and_audit perform_code_scan get_gemini_client
    simp only [h2, Bool.false_eq_true, if_false]
    rw [scanLoop_noClient ok env n 0 ⟨ki, none⟩ Trace.init UNKNOWN_ERR]
    simp [Trace.init]

/-- Witness for C6 at a concrete no-client run. -/
theorem c6_no_client_behavior_witness :
    (generate_code_and_audit (fun _ => false) c6Env 3 ⟨0, none⟩).1 = none ∧
    (generate_code_and_audit (fun _ => false) c6Env 3 ⟨0, none⟩).2.2.attempts
      = 0 ∧
    (generate_code_and_audit (fun _ => false) c6Env 3 ⟨0, none⟩).2.2.calls
      = [] ∧
    (perform_code_scan (fun _ => false) c6Env 3 ⟨0, none⟩).2.2.attempts
      = 3 ∧
    (perform_code_scan (fun _ => false) c6Env 3 ⟨0, none⟩).2.2.calls = [] ∧
    (perform_code_scan (fun _ => false) c6Env 3 ⟨0, none⟩).2.2.sleeps =
      List.replicate 3 1 ∧
    (perform_code_scan (fun _ => false) c6Env 3 ⟨0, none⟩).1 =
      degradedScan ("// API Error: " ++ NONE_TYPE_MSG) :=
  c6_no_client_behavior (fun _ => false) c6Env 3 ⟨0, none⟩ rfl rfl
    (by decide)

/-!  Claim C7. -/

/-- The C7 counterexample input: well-formed tag pairs whose JSON span is the
valid structured document `{"contract_id":"a```b"}`. -/
def c7bad : String :=
  "[C++ START]x[C++ END][JSON START]\x7b\"contract_id\":\"a```b\"\x7d[JSON END]"

/-- C7 counterexample: the JSON span is valid structured data whose
`contract_id` is `a```b`, yet the extractor deletes the backtick fence
characters before parsing and returns `ab` — not "exactly that parsed
structure". -/
theorem c7_counterexample :
    strictSpan c7bad "[JSON START]" "[JSON END]" =
      some "\x7b\"contract_id\":\"a```b\"\x7d" ∧
    jsonLoads "\x7b\"contract_id\":\"a```b\"\x7d" =
      some (JValue.obj [("contract_id", JValue.str "a```b")]) ∧
    parse_qubic_dual_output c7bad =
      mkDualResult "x"
        (ensure_json_structure [("contract_id", JValue.str "ab")]) :=
  ⟨rfl, rfl, rfl⟩

/-- C7 (amended): when both tag pairs match and the JSON span — after the
fence cleanup `.replace('```json','').replace('```','')` — parses as a dict,
the extractor returns the code span stripped of surrounding whitespace and
the normalized parse of the cleaned span.  This equals the span's own parse
exactly when the span contains no backtick fences. -/
theorem c7_strict_tag_extraction (t c j : String)
    (kvs : List (String × JValue))
    (h1 : strictSpan t "[C++ START]" "[C++ END]" = some c)
    (h2 : strictSpan t "[JSON START]" "[JSON END]" = some j)
    (h3 : jsonLoads (stripFences j) = some (JValue.obj kvs)) :
    parse_qubic_dual_output t =
      mkDualResult (pyStrip c) (ensure_json_structure kvs) := by
  unfold parse_qubic_dual_output strategy1
  simp only [h1, h2, h3]

/-- The Scenario A input of the spec. -/
def c7good : String :=
  "[C++ START]\nint main()\x7breturn 0;\x7d\n[C++ END]\n[JSON START]\n\x7b\"contract_id\":\"X\"\x7d\n[JSON END]"

/-- Witness for C7 at Scenario A: markers around `int main(){return 0;}` and
`{"contract_id":"X"}` yield exactly that code and an audit with
`contract_id = "X"` plus the `compliance` and `security_audit` keys. -/
theorem c7_strict_tag_extraction_witness :
    parse_qubic_dual_output c7good =
      mkDualResult "int main()\x7breturn 0;\x7d"
        (ensure_json_structure [("contract_id", JValue.str "X")]) ∧
    (jLookup (ensure_json_structure [("contract_id", JValue.str "X")])
      "compliance").isSome = true ∧
    (jLookup (ensure_json_structure [("contract_id", JValue.str "X")])
      "security_audit").isSome = true := by
  refine ⟨?_, rfl, rfl⟩
  exact c7_strict_tag_extraction c7good "\nint main()\x7breturn 0;\x7d\n"
    "\n\x7b\"contract_id\":\"X\"\x7d\n" [("contract_id", JValue.str "X")]
    rfl rfl rfl

/-!  Claim C8. -/

/-- C8 counterexample input 1: the model supplies a `security_audit` that is
an empty dict. -/
def c8t : String :=
  "[C++ START]x[C++ END][JSON START]\x7b\"security_audit\":\x7b\x7d\x7d[JSON END]"

/-- C8 counterexample input 2: the model supplies a `compliance` whose
`ai_governance` is an empty dict. -/
def c8t2 : String :=
  "[C++ START]x[C++ END][JSON START]\x7b\"compliance\":\x7b\"ai_governance\":\x7b\x7d\x7d\x7d[JSON END]"

/-- C8 counterexample: two audits returned by the extractor violating the
claimed nested guarantees, because `ensure_json_structure` checks only the
presence of the keys, not their contents.  On `c8t` the returned audit's
`security_audit` is the empty dict — containing neither
`vulnerabilities_detected`, nor `gas_cost_estimate`, nor `is_qbc_compliant`;
on `c8t2` the returned audit's `compliance` is passed through verbatim with
its `ai_governance` the empty dict — containing no `model_name`. -/
theorem c8_counterexample :
    parse_qubic_dual_output c8t =
      mkDualResult "x"
        (ensure_json_structure [("security_audit", JValue.obj [])]) ∧
    jLookup (ensure_json_structure [("security_audit", JValue.obj [])])
      "security_audit" = some (JValue.obj []) ∧
    jLookup ([] : List (String × JValue)) "vulnerabilities_detected" =
      none ∧
    parse_qubic_dual_output c8t2 =
      mkDualResult "x"
        (ensure_json_structure
          [("compliance", JValue.obj [("ai_governance", JValue.obj [])])]) ∧
    jLookup (ensure_json_structure
        [("compliance", JValue.obj [("ai_governance", JValue.obj [])])])
      "compliance" =
      some (JValue.obj [("ai_governance", JValue.obj [])]) ∧
    jLookup ([] : List (String × JValue)) "model_name" = none :=
  ⟨rfl, rfl, rfl, rfl, rfl, rfl⟩

/-- C8 (amended): every normalized audit contains a `compliance` dict that
contains `ai_governance`, and contains a `security_audit` key.  When
`compliance` was absent or not a dict it is recreated as exactly
`{ai_governance: {model_name: <configured model>}}`; when it was a dict
lacking `ai_governance`, that entry is created as exactly
`{model_name: <configured model>}` with the dict's other entries kept in
place (the `setKey` form); when it was a dict already containing
`ai_governance` — of whatever shape — it is passed through verbatim and not
completed further.  When `security_audit` was absent it is created with
exactly the three default fields; keys other than `compliance` are passed
through verbatim (`security_audit` included, whatever its shape).  Every
scan-path return value is such a normalized audit. -/
theorem c8_normalized_audit_keys (x : List (String × JValue)) :
    (∃ comp, jLookup (ensure_json_structure x) "compliance" =
        some (JValue.obj comp) ∧ (jLookup comp "ai_governance").isSome) ∧
    (jLookup (ensure_json_structure x) "security_audit").isSome ∧
    ((∀ comp, jLookup x "compliance" ≠ some (JValue.obj comp)) →
      jLookup (ensure_json_structure x) "compliance" =
        some (JValue.obj [("ai_governance",
          JValue.obj [("model_name", JValue.str GEMINI_MODEL_NAME)])])) ∧
    (∀ comp, jLookup x "compliance" = some (JValue.obj comp) →
      jLookup comp "ai_governance" = none →
      jLookup (ensure_json_structure x) "compliance" =
        some (JValue.obj (setKey comp "ai_governance"
          (JValue.obj [("model_name", JValue.str GEMINI_MODEL_NAME)])))) ∧
    (∀ comp, jLookup x "compliance" = some (JValue.obj comp) →
      (jLookup comp "ai_governance").isSome →
      jLookup (ensure_json_structure x) "compliance" =
        some (JValue.obj comp)) ∧
    (jLookup x "security_audit" = none →
      jLookup (ensure_json_structure x) "security_audit" =
        some (JValue.obj [("vulnerabilities_detected", JValue.arr []),
                          ("gas_cost_estimate", JValue.str "UNKNOWN"),
                          ("is_qbc_compliant", JValue.bool false)])) ∧
    (∀ k v, k ≠ "compliance" → jLookup x k = some v →
      jLookup (ensure_json_structure x) k = some v) ∧
    (∀ t, ∃ kvs, scanParse t = ensure_json_structure kvs) := by
  refine ⟨ensure_compliance_good x, ensure_security_some x, ?_, ?_, ?_, ?_,
    fun k v hk hv => ensure_preserves_of_ne_compliance x k v hk hv, ?_⟩
  · intro hnd
    unfold ensure_json_structure
    rw [healSecurity_lookup_ne _ _ (by decide), healCompliance_reset x hnd,
        jLookup_setKey_self]
    rfl
  · intro comp hcomp hg
    unfold ensure_json_structure
    rw [healSecurity_lookup_ne _ _ (by decide),
        healCompliance_creates x comp hcomp hg, jLookup_setKey_self]
  · intro comp hcomp hg
    unfold ensure_json_structure
    rw [healSecurity_lookup_ne _ _ (by decide),
        healCompliance_of_good x comp hcomp hg, hcomp]
  · intro hnone
    unfold ensure_json_structure healSecurity
    rw [healCompliance_lookup_ne x _ (by decide), hnone]
    simp [jLookup_setKey_self]
  · intro t
    unfold scanParse scanRawFallback
    split
    · split
      · exact ⟨_, rfl⟩
      · exact ⟨_, rfl⟩
    · exact ⟨_, rfl⟩

/-- Witness for C8 at concrete audits: one lacking both guaranteed keys (the
defaults are created with their exact contents, the other key passes
through), one with a `compliance` dict lacking `ai_governance` (the entry is
created with its exact content, the dict's other entry kept), and one with a
model-supplied `ai_governance` (passed through verbatim, uncompleted). -/
theorem c8_normalized_audit_keys_witness :
    jLookup (ensure_json_structure [("agent_note", JValue.str "n")])
      "security_audit" =
      some (JValue.obj [("vulnerabilities_detected", JValue.arr []),
                        ("gas_cost_estimate", JValue.str "UNKNOWN"),
                        ("is_qbc_compliant", JValue.bool false)]) ∧
    jLookup (ensure_json_structure [("agent_note", JValue.str "n")])
      "compliance" =
      some (JValue.obj [("ai_governance",
        JValue.obj [("model_name", JValue.str GEMINI_MODEL_NAME)])]) ∧
    jLookup (ensure_json_structure [("agent_note", JValue.str "n")])
      "agent_note" = some (JValue.str "n") ∧
    jLookup (ensure_json_structure
        [("compliance", JValue.obj [("z", JValue.num 1)])]) "compliance" =
      some (JValue.obj [("z", JValue.num 1), ("ai_governance",
        JValue.obj [("model_name", JValue.str GEMINI_MODEL_NAME)])]) ∧
    jLookup (ensure_json_structure
        [("compliance", JValue.obj [("ai_governance", JValue.str "odd")])])
      "compliance" =
      some (JValue.obj [("ai_governance", JValue.str "odd")]) := by
  have h1 := c8_normalized_audit_keys [("agent_note", JValue.str "n")]
  have h2 := c8_normalized_audit_keys
    [("compliance", JValue.obj [("z", JValue.num 1)])]
  have h3 := c8_normalized_audit_keys
    [("compliance", JValue.obj [("ai_governance", JValue.str "odd")])]
  refine ⟨h1.2.2.2.2.2.1 rfl,
    h1.2.2.1 ?_,
    h1.2.2.2.2.2.2.1 "agent_note" _ (by decide) rfl,
    h2.2.2.2.1 [("z", JValue.num 1)] rfl rfl,
    h3.2.2.2.2.1 [("ai_governance", JValue.str "odd")] rfl rfl⟩
  intro comp hcomp
  simp [jLookup] at hcomp

/-!  Claim C9. -/

/-- Environment for the C9 runs: every remote call raises a server-side
transient error (HTTP 5xx / unavailable). -/
def c9Env : Nat → CallOutcome :=
  fun _ => .exn "HTTP 500: internal server error, service unavailable"

/-- C9 counterexample: with server-side transient errors on every attempt,
the sleeps before the retries are `[1, 1, 1]` — each recorded delay is the
constant 1 second, so the delay before the second retry equals the delay
before the first instead of growing linearly with the attempt number; there
is also no separate, smaller growth for other exceptions: the source has a
single literal `time.sleep(1)` on every non-rotating path. -/
theorem c9_counterexample :
    (generate_code_and_audit (fun _ => true) c9Env 3 ⟨0, none⟩).2.2.sleeps
      = [1, 1, 1] ∧
    (generate_code_and_audit (fun _ => true) c9Env 3
      ⟨0, none⟩).2.2.sleeps.get? 0 = some 1 ∧
    (generate_code_and_audit (fun _ => true) c9Env 3
      ⟨0, none⟩).2.2.sleeps.get? 1 = some 1 ∧
    (generate_code_and_audit (fun _ => true) c9Env 3
      ⟨0, none⟩).2.2.sleeps.get? 2 = some 1 :=
  ⟨rfl, rfl, rfl, rfl⟩

/-- C9 (amended): in both orchestrators, the delay slept before a retry of
any non-rate-limited exception is the constant 1 second, independent of the
attempt index and of the error class — over a full failing run the recorded
sleeps are `retries` copies of `1`. -/
theorem c9_constant_backoff (ok : Nat → Bool) (env : Nat → CallOutcome)
    (msg : String) (hm : is429 msg = false)
    (henv : ∀ k, env k = .exn msg) (retries : Nat) (hr : 0 < retries)
    (ki c : Nat) :
    (generate_code_and_audit ok env retries ⟨ki, some c⟩).2.2.sleeps =
      List.replicate retries 1 ∧
    (perform_code_scan ok env retries ⟨ki, some c⟩).2.2.sleeps =
      List.replicate retries 1 := by
  cases retries with
  | zero => omega
  | succ n =>
    have hg : get_gemini_client ok ⟨ki, some c⟩ = (some c, ⟨ki, some c⟩) :=
      rfl
    unfold generate_code_and_audit perform_code_scan
    simp only [hg]
    rw [genLoop_allNon429 ok env msg hm henv c n 0 ⟨ki, some c⟩
          Trace.init UNKNOWN_ERR,
        scanLoop_allNon429 ok env msg hm henv c n 0 ⟨ki, some c⟩
          Trace.init UNKNOWN_ERR]
    simp [Trace.init]

/-- Witness for C9 at a concrete run with a cached client. -/
theorem c9_constant_backoff_witness :
    (generate_code_and_audit (fun _ => true) c9Env 3 ⟨0, some 0⟩).2.2.sleeps
      = List.replicate 3 1 ∧
    (perform_code_scan (fun _ => true) c9Env 3 ⟨0, some 0⟩).2.2.sleeps =
      List.replicate 3 1 :=
  c9_constant_backoff (fun _ => true) c9Env
    "HTTP 500: internal server error, service unavailable" (by decide)
    (fun _ => rfl) 3 (by decide) 0 0

/-!  Claim C10. -/

/-- Lemma: string append is associative (needed to normalize the commit
seed). -/
theorem strAppend_assoc (a b c : String) : a ++ b ++ c = a ++ (b ++ c) := by
  apply String.ext
  simp [String.data_append, List.append_assoc]

/-- C10: the transaction identifier depends only on the mode prefix and the
code hash.  The `meta` object written by the endpoint has no
`submission_timestamp` key, so the seed's timestamp component renders as
Python `None` ("None" in the f-string) for every call; two commits of
byte-identical artifacts (same `code_hash`) at any two times — and with any
two audits and client references — yield the identical identifier. -/
theorem c10_txid_independent_of_time (h : String → String) (ch : String) :
    (∀ ref audit ts x, genCommitTxId h ref audit ch ts = some x →
      x = "QUBIC-TX-" ++ pyUpper ((h (ch ++ "-None")).take 16)) ∧
    (∀ ref audit ts x, scanCommitTxId h ref audit ch ts = some x →
      x = "QUBIC-SCAN-TX-" ++
        pyUpper ((h ("SCAN-" ++ ch ++ "-None")).take 16)) ∧
    (∀ ref, jLookup (genMeta ref ch) "submission_timestamp" = none) ∧
    (∀ ref, jLookup (scanMeta ref ch) "submission_timestamp" = none) := by
  refine ⟨?_, ?_, fun ref => rfl, fun ref => rfl⟩
  · intro ref audit ts x hx
    unfold genCommitTxId at hx
    rcases hset : setAuditTimestamp audit ts with _ | a1 <;> rw [hset] at hx
    · simp at hx
    · simp only [Option.some_bind] at hx
      unfold commit_audit_log at hx
      rw [jLookup_setKey_self] at hx
      simp only [Option.map_some] at hx
      have hx' := Option.some.inj hx
      have hj : pyFmtOpt (jLookup (genMeta ref ch) "submission_timestamp") =
          "None" := rfl
      simp only [hj] at hx'
      rw [← hx']
      simp only [strAppend_assoc]
      rfl
  · intro ref audit ts x hx
    unfold scanCommitTxId at hx
    rcases hset : setAuditTimestamp audit ts with _ | a1 <;> rw [hset] at hx
    · simp at hx
    · simp only [Option.some_bind] at hx
      unfold log_scan_transaction at hx
      rw [jLookup_setKey_self] at hx
      simp only [Option.map_some] at hx
      have hx' := Option.some.inj hx
      have hj : pyFmtOpt (jLookup (scanMeta ref ch) "submission_timestamp") =
          "None" := rfl
      simp only [hj] at hx'
      rw [← hx']
      simp only [strAppend_assoc]
      rfl

/-- Witness for C10: two commits of the same artifact hash at different
times, with different audits and client references, produce the identical
transaction identifier, and the theorem pins its value. -/
theorem c10_txid_independent_of_time_witness :
    genCommitTxId (fun s => s) "POC-HACKATHON-2025"
      (ensure_json_structure []) "abc" "2025-01-01T00:00:00Z" =
      some "QUBIC-TX-ABC-NONE" ∧
    genCommitTxId (fun s => s) "other-client"
      (ensure_json_structure [("extra", JValue.num 1)]) "abc"
      "2099-12-31T23:59:59Z" = some "QUBIC-TX-ABC-NONE" ∧
    "QUBIC-TX-ABC-NONE" =
      "QUBIC-TX-" ++ pyUpper (((fun s : String => s)
        ("abc" ++ "-None")).take 16) := by
  refine ⟨rfl, rfl, ?_⟩
  exact (c10_txid_independent_of_time (fun s => s) "abc").1
    "POC-HACKATHON-2025" (ensure_json_structure [])
    "2025-01-01T00:00:00Z" "QUBIC-TX-ABC-NONE" rfl

end QGen
